import Mathlib

/-!
Verification of the room-session controller of the RTC repository
(`src/components/VideoCall.jsx`, active `App` component).

The component is a single-threaded, event-driven controller around one
RTCPeerConnection (the negotiation agent) and one socket connection (the
relay).  We embed:

* the negotiation agent as a signaling-state machine, following the
  external-agent contract the component relies on (setLocalDescription /
  setRemoteDescription succeed exactly in the signaling states the
  platform permits; addIceCandidate fails while no remote description is
  set);
* the event handlers (`user-connected`, `signal`), the user commands
  (`toggleMute`, `toggleVideo`, `endCall`) and the unmount cleanup,
  translated line by line from the source;
* a small event-loop layer (`sysStep`) for the temporal claims.  The
  source ends a call with `window.location.reload()`, which tears the
  page down: this is modelled by the `halted` flag, under which no
  handler runs and every pending continuation is discarded.

Handlers return, besides the new controller state, the list of messages
emitted to the relay and the list of operations invoked on the agent, so
that "emits exactly one envelope" and "no agent operation" are statements
about the returned lists.
-/

namespace RTC

/-- Role tag of a session description: the two halves of the exchange. -/
inductive Role
  | offer
  | answer
deriving DecidableEq

/-- A session description as relayed on the wire: a role tag plus a body
blob that the controller never inspects. -/
structure Description where
  role : Role
  body : String
deriving DecidableEq

/-- A network candidate: a blob relayed verbatim. -/
structure Candidate where
  body : String
deriving DecidableEq

/-- The `data` field of a relayed signal message, mirroring the wire shape
`data: \x7b sdp?, candidate? \x7d` with both fields optional. -/
structure SignalData where
  sdp : Option Description
  candidate : Option Candidate
deriving DecidableEq

/-- A relayed signal message `\x7b to, from, data \x7d`. -/
structure Envelope where
  toPeer : String
  fromPeer : String
  data : SignalData
deriving DecidableEq

/-- Messages the controller emits to the relay: `join-room` and `signal`. -/
inductive Emission
  | joinRoom (room : String)
  | signal (env : Envelope)
deriving DecidableEq

/-- Signaling state of the peer-connection agent, as the platform keeps
it.  `closed` is reached by `close()`. -/
inductive SignalingState
  | stable
  | haveLocalOffer
  | haveRemoteOffer
  | closed
deriving DecidableEq

/-- The negotiation agent (RTCPeerConnection) as consumed by the
component: the applied descriptions, the remote candidates applied so
far, and the signaling state. -/
structure Agent where
  signalingState : SignalingState
  localDescription : Option Description
  remoteDescription : Option Description
  remoteCandidates : List Candidate
deriving DecidableEq

/-- createOffer: produces a description with role `offer`; the body is an
input, since the agent generates it outside the controller. -/
def createOffer (body : String) : Description := ⟨Role.offer, body⟩

/-- createAnswer: produces a description with role `answer`. -/
def createAnswer (body : String) : Description := ⟨Role.answer, body⟩

/-- setLocalDescription: succeeds exactly in the signaling states the
platform permits, recording the description; rejects otherwise. -/
def Agent.setLocalDescription (a : Agent) (d : Description) : Option Agent :=
  match d.role, a.signalingState with
  | Role.offer, SignalingState.stable =>
      some { a with localDescription := some d,
                    signalingState := SignalingState.haveLocalOffer }
  | Role.offer, SignalingState.haveLocalOffer =>
      some { a with localDescription := some d }
  | Role.answer, SignalingState.haveRemoteOffer =>
      some { a with localDescription := some d,
                    signalingState := SignalingState.stable }
  | _, _ => none

/-- setRemoteDescription: an offer is accepted from `stable` or
`haveRemoteOffer`; an answer only from `haveLocalOffer`, that is, while a
local offer is outstanding.  Rejected otherwise. -/
def Agent.setRemoteDescription (a : Agent) (d : Description) : Option Agent :=
  match d.role, a.signalingState with
  | Role.offer, SignalingState.stable =>
      some { a with remoteDescription := some d,
                    signalingState := SignalingState.haveRemoteOffer }
  | Role.offer, SignalingState.haveRemoteOffer =>
      some { a with remoteDescription := some d }
  | Role.answer, SignalingState.haveLocalOffer =>
      some { a with remoteDescription := some d,
                    signalingState := SignalingState.stable }
  | _, _ => none

/-- addIceCandidate: fails while no remote description is set (and on a
closed agent); otherwise records the candidate. -/
def Agent.addIceCandidate (a : Agent) (k : Candidate) : Option Agent :=
  if a.signalingState = SignalingState.closed then none
  else
    match a.remoteDescription with
    | none => none
    | some _ => some { a with remoteCandidates := a.remoteCandidates ++ [k] }

/-- Kind of a local media track. -/
inductive TrackKind
  | audio
  | video
deriving DecidableEq

/-- A local media track: its kind, its enabled flag and whether it has
been stopped. -/
structure Track where
  kind : TrackKind
  enabled : Bool
  stopped : Bool
deriving DecidableEq

/-- The controller state of the `App` component: the agent (`pcRef`), the
room id, the socket connection (`socketRef`), the local stream
(`localVideoRef.current.srcObject`, absent until getUserMedia resolves),
the two React flags, and `halted`, set once `window.location.reload()`
has torn the page down (the Ended state). -/
structure Controller where
  agent : Agent
  roomID : String
  socketConnected : Bool
  localStream : Option (List Track)
  muted : Bool
  videoOff : Bool
  halted : Bool
deriving DecidableEq

/-- Observable outcome of a toggle: nothing at all (outer guard failed),
a success toast, or the no-tracks error toast. -/
inductive ToggleReport
  | silent
  | success
  | noTrackError
deriving DecidableEq

/-- Operations the controller invokes on the negotiation agent, recorded
so the theorems can speak about which agent calls a handler makes. -/
inductive AgentOp
  | createOfferOp
  | createAnswerOp
  | setLocalOp (d : Description)
  | setRemoteOp (d : Description)
  | addIceOp (k : Candidate)
deriving DecidableEq

/-- Tests whether an agent operation is a candidate application. -/
def isAddIce : AgentOp → Bool
  | AgentOp.addIceOp _ => true
  | _ => false

/-- A fresh RTCPeerConnection: stable, no descriptions, no candidates. -/
def freshAgent : Agent :=
  { signalingState := SignalingState.stable, localDescription := none,
    remoteDescription := none, remoteCandidates := [] }

/-- The stream getUserMedia returns on success: one enabled audio track
and one enabled video track. -/
def initialTracks : List Track :=
  [{ kind := TrackKind.audio, enabled := true, stopped := false },
   { kind := TrackKind.video, enabled := true, stopped := false }]

/-- The success path of the mount effect: socket connected, stream
acquired, fresh agent created, `join-room` emitted for the room. -/
def start (room : String) : Controller × List Emission :=
  ({ agent := freshAgent, roomID := room, socketConnected := true,
     localStream := some initialTracks, muted := false, videoOff := false,
     halted := false },
   [Emission.joinRoom room])

/-- The `user-connected` handler: createOffer, setLocalDescription, then
emit `signal \x7b to: userId, from: selfId, data: \x7b sdp:
localDescription \x7d \x7d`; a failure anywhere in the chain is caught
and only logged. -/
def handleUserConnected (selfId userId offerBody : String) (c : Controller) :
    Controller × List Emission × List AgentOp :=
  let offer := createOffer offerBody
  match c.agent.setLocalDescription offer with
  | some a1 =>
      let ems :=
        match a1.localDescription with
        | some d =>
            [Emission.signal { toPeer := userId, fromPeer := selfId,
                               data := { sdp := some d, candidate := none } }]
        | none => []
      ({ c with agent := a1 }, ems,
       [AgentOp.createOfferOp, AgentOp.setLocalOp offer])
  | none => (c, [], [AgentOp.createOfferOp, AgentOp.setLocalOp offer])

/-- The `signal` handler: if `data.sdp` is present, setRemoteDescription
and, when the description is an offer, createAnswer, setLocalDescription
and emit the answer back to `from`; else if `data.candidate` is present,
addIceCandidate; otherwise nothing.  Each branch catches its failures and
only logs them. -/
def handleSignal (selfId fromPeer answerBody : String) (d : SignalData)
    (c : Controller) : Controller × List Emission × List AgentOp :=
  match d.sdp with
  | some desc =>
      match c.agent.setRemoteDescription desc with
      | none => (c, [], [AgentOp.setRemoteOp desc])
      | some a1 =>
          if desc.role = Role.offer then
            let ans := createAnswer answerBody
            match a1.setLocalDescription ans with
            | none =>
                ({ c with agent := a1 }, [],
                 [AgentOp.setRemoteOp desc, AgentOp.createAnswerOp,
                  AgentOp.setLocalOp ans])
            | some a2 =>
                let ems :=
                  match a2.localDescription with
                  | some ld =>
                      [Emission.signal
                        { toPeer := fromPeer, fromPeer := selfId,
                          data := { sdp := some ld, candidate := none } }]
                  | none => []
                ({ c with agent := a2 }, ems,
                 [AgentOp.setRemoteOp desc, AgentOp.createAnswerOp,
                  AgentOp.setLocalOp ans])
          else ({ c with agent := a1 }, [], [AgentOp.setRemoteOp desc])
  | none =>
      match d.candidate with
      | some k =>
          match c.agent.addIceCandidate k with
          | none => (c, [], [AgentOp.addIceOp k])
          | some a1 => ({ c with agent := a1 }, [], [AgentOp.addIceOp k])
      | none => (c, [], [])

/-- Decides whether processing `d` runs into a failing agent apply, the
situation the catch blocks of the handler absorb. -/
def applyFails (answerBody : String) (c : Controller) (d : SignalData) : Bool :=
  match d.sdp with
  | some desc =>
      match c.agent.setRemoteDescription desc with
      | none => true
      | some a1 =>
          if desc.role = Role.offer then
            match a1.setLocalDescription (createAnswer answerBody) with
            | none => true
            | some _ => false
          else false
  | none =>
      match d.candidate with
      | some k => (c.agent.addIceCandidate k).isNone
      | none => false

/-- The tracks of a given kind, in stream order (getAudioTracks and
getVideoTracks of the stream). -/
def getKindTracks (k : TrackKind) (ts : List Track) : List Track :=
  ts.filter (fun t => decide (t.kind = k))

/-- getAudioTracks of the local stream. -/
def getAudioTracks (ts : List Track) : List Track :=
  getKindTracks TrackKind.audio ts

/-- getVideoTracks of the local stream. -/
def getVideoTracks (ts : List Track) : List Track :=
  getKindTracks TrackKind.video ts

/-- Writes the enabled flag of the first track of the given kind, the
effect of `tracks[0].enabled = e` on the filtered track list. -/
def setFirstEnabled (k : TrackKind) (e : Bool) : List Track → List Track
  | [] => []
  | t :: ts =>
      if t.kind = k then { t with enabled := e } :: ts
      else t :: setFirstEnabled k e ts

/-- Enabled flag of the first track of the given kind, if any. -/
def firstTrackEnabled (k : TrackKind) (c : Controller) : Option Bool :=
  match c.localStream with
  | none => none
  | some ts => ((getKindTracks k ts).head?).map Track.enabled

/-- toggleMute: with no stream the outer guard fails silently; with a
stream but no audio track an error toast is shown and nothing changes;
otherwise the flag flips and the first audio track gets enabled =
!newMuted. -/
def toggleMute (c : Controller) : Controller × ToggleReport :=
  match c.localStream with
  | none => (c, ToggleReport.silent)
  | some ts =>
      if (getAudioTracks ts).length > 0 then
        let newMuted := !c.muted
        ({ c with muted := newMuted,
                  localStream :=
                    some (setFirstEnabled TrackKind.audio (!newMuted) ts) },
         ToggleReport.success)
      else (c, ToggleReport.noTrackError)

/-- toggleVideo: the same shape as toggleMute, over the video tracks and
the videoOff flag. -/
def toggleVideo (c : Controller) : Controller × ToggleReport :=
  match c.localStream with
  | none => (c, ToggleReport.silent)
  | some ts =>
      if (getVideoTracks ts).length > 0 then
        let newVideoOff := !c.videoOff
        ({ c with videoOff := newVideoOff,
                  localStream :=
                    some (setFirstEnabled TrackKind.video (!newVideoOff) ts) },
         ToggleReport.success)
      else (c, ToggleReport.noTrackError)

/-- Stops every track of a stream. -/
def stopAll (ts : List Track) : List Track :=
  ts.map (fun t => { t with stopped := true })

/-- close() on the peer connection. -/
def closeAgent (a : Agent) : Agent :=
  { a with signalingState := SignalingState.closed }

/-- The unmount cleanup of the effect: disconnect the socket, stop the
local tracks, close the peer connection. -/
def cleanup (c : Controller) : Controller :=
  { c with socketConnected := false,
           localStream := c.localStream.map stopAll,
           agent := closeAgent c.agent }

/-- endCall: disconnect the socket, stop the local tracks, then
`window.location.reload()`.  The reload unmounts the component, which
runs the cleanup, and tears the page down, which `halted` records. -/
def endCall (c : Controller) : Controller :=
  cleanup { c with socketConnected := false,
                   localStream := c.localStream.map stopAll,
                   halted := true }

/-- External stimuli of the controller: relay events, locally gathered
candidates, and the three user commands.  The bodies the agent would
produce for createOffer and createAnswer travel with the event. -/
inductive Event
  | userConnected (userId offerBody : String)
  | signalEv (fromPeer : String) (d : SignalData) (answerBody : String)
  | localCandidate (k : Candidate)
  | toggleMuteEv
  | toggleVideoEv
  | endCallEv
deriving DecidableEq

/-- A suspended continuation of an asynchronous handler: the handler not
yet started, or its relay emission still pending after the agent calls
resolved.  The emission is a separate step because the source awaits the
agent between the applies and the emit, so ending the call in between
discards the emission. -/
inductive PendingTask
  | runSignal (fromPeer : String) (d : SignalData) (answerBody : String)
  | runUserConnected (userId offerBody : String)
  | emitPending (ems : List Emission)
deriving DecidableEq

/-- The whole page: controller state, pending continuations of the event
loop, and the log of everything emitted to the relay so far. -/
structure Sys where
  ctrl : Controller
  pending : List PendingTask
  log : List Emission
deriving DecidableEq

/-- Runs one segment of a pending continuation: the handler body with its
state effects, deferring the emission to a later microtask, or the
emission itself. -/
def resumeTask (selfId : String) (c : Controller) :
    PendingTask → Controller × List Emission × Option PendingTask
  | PendingTask.runSignal f d ab =>
      let r := handleSignal selfId f ab d c
      (r.1, [],
       if r.2.1.isEmpty then none else some (PendingTask.emitPending r.2.1))
  | PendingTask.runUserConnected u ob =>
      let r := handleUserConnected selfId u ob c
      (r.1, [],
       if r.2.1.isEmpty then none else some (PendingTask.emitPending r.2.1))
  | PendingTask.emitPending ems => (c, ems, none)

/-- A step of the cooperative event loop: an external event is delivered,
or the scheduler resumes the oldest pending continuation. -/
inductive SysEvent
  | deliver (e : Event)
  | resume
deriving DecidableEq

/-- One step of the page.  After the reload (`halted`) nothing runs any
more: no handler is registered and no continuation survives.  Relay
events are only delivered while the socket is connected; locally
gathered candidates only fire while the agent is not closed; `endCall`
clears the pending continuations because the reload discards them. -/
def sysStep (selfId : String) (s : Sys) (ev : SysEvent) : Sys :=
  if s.ctrl.halted then s
  else
    match ev with
    | SysEvent.deliver e =>
        match e with
        | Event.userConnected u ob =>
            if s.ctrl.socketConnected then
              { s with pending := s.pending ++ [PendingTask.runUserConnected u ob] }
            else s
        | Event.signalEv f d ab =>
            if s.ctrl.socketConnected then
              { s with pending := s.pending ++ [PendingTask.runSignal f d ab] }
            else s
        | Event.localCandidate k =>
            if s.ctrl.agent.signalingState = SignalingState.closed then s
            else if s.ctrl.socketConnected then
              { s with log := s.log ++
                  [Emission.signal
                    { toPeer := s.ctrl.roomID, fromPeer := selfId,
                      data := { sdp := none, candidate := some k } }] }
            else s
        | Event.toggleMuteEv => { s with ctrl := (toggleMute s.ctrl).1 }
        | Event.toggleVideoEv => { s with ctrl := (toggleVideo s.ctrl).1 }
        | Event.endCallEv =>
            { ctrl := endCall s.ctrl, pending := [], log := s.log }
    | SysEvent.resume =>
        match s.pending with
        | [] => s
        | t :: ts =>
            let r := resumeTask selfId s.ctrl t
            { ctrl := r.1,
              pending := ts ++ (match r.2.2 with | none => [] | some t2 => [t2]),
              log := s.log ++ r.2.1 }

/-- Runs a list of event-loop steps. -/
def sysRun (selfId : String) (s : Sys) : List SysEvent → Sys
  | [] => s
  | ev :: evs => sysRun selfId (sysStep selfId s ev) evs

/-- A controller whose getUserMedia has not resolved: no local stream. -/
def noStreamCtrl : Controller :=
  { agent := freshAgent, roomID := "r", socketConnected := true,
    localStream := none, muted := false, videoOff := false, halted := false }

/-- A controller whose stream holds a video track but no audio track. -/
def videoOnlyCtrl : Controller :=
  { agent := freshAgent, roomID := "r", socketConnected := true,
    localStream := some [{ kind := TrackKind.video, enabled := true, stopped := false }],
    muted := false, videoOff := false, halted := false }

/-- A controller whose audio track is disabled although the muted flag is
false: the track and the flag disagree. -/
def skewCtrl : Controller :=
  { agent := freshAgent, roomID := "r", socketConnected := true,
    localStream := some [{ kind := TrackKind.audio, enabled := false, stopped := false }],
    muted := false, videoOff := false, halted := false }

/-- A live page with one pending continuation: an emission still waiting
for its microtask, as after an awaited createAnswer resolved. -/
def pendingSys : Sys :=
  { ctrl := (start "r").1,
    pending := [PendingTask.emitPending [Emission.joinRoom "q"]],
    log := [] }

/-- On success with an offer, setRemoteDescription yields the input agent
with the remote description recorded and state haveRemoteOffer. -/
theorem setRemote_offer_eq (a a1 : Agent) (d : Description)
    (hr : d.role = Role.offer) (h : a.setRemoteDescription d = some a1) :
    a1 = { a with remoteDescription := some d,
                  signalingState := SignalingState.haveRemoteOffer } := by
  obtain ⟨rl, bd⟩ := d
  obtain ⟨st, ld, rd, rc⟩ := a
  cases rl <;> cases st <;> simp_all [Agent.setRemoteDescription]

/-- An answer is accepted by setRemoteDescription while a local offer is
outstanding. -/
theorem setRemote_answer_some (a : Agent) (d : Description)
    (hr : d.role = Role.answer)
    (h : a.signalingState = SignalingState.haveLocalOffer) :
    a.setRemoteDescription d =
      some { a with remoteDescription := some d,
                    signalingState := SignalingState.stable } := by
  obtain ⟨rl, bd⟩ := d
  obtain ⟨st, ld, rd, rc⟩ := a
  cases rl <;> cases st <;> simp_all [Agent.setRemoteDescription]

/-- An answer is rejected by setRemoteDescription while no local offer is
outstanding. -/
theorem setRemote_answer_none (a : Agent) (d : Description)
    (hr : d.role = Role.answer)
    (h : a.signalingState ≠ SignalingState.haveLocalOffer) :
    a.setRemoteDescription d = none := by
  obtain ⟨rl, bd⟩ := d
  obtain ⟨st, ld, rd, rc⟩ := a
  cases rl <;> cases st <;> simp_all [Agent.setRemoteDescription]

/-- addIceCandidate fails while no remote description is set. -/
theorem addIce_no_remote (a : Agent) (k : Candidate)
    (h : a.remoteDescription = none) : a.addIceCandidate k = none := by
  simp [Agent.addIceCandidate, h]

/-- addIceCandidate records the candidate once a remote description is set
and the agent is not closed. -/
theorem addIce_with_remote (a : Agent) (k : Candidate) (d0 : Description)
    (h : a.remoteDescription = some d0)
    (hc : a.signalingState ≠ SignalingState.closed) :
    a.addIceCandidate k =
      some { a with remoteCandidates := a.remoteCandidates ++ [k] } := by
  simp [Agent.addIceCandidate, h, hc]

/-- C1: for every valid (non-empty) room identifier, after start succeeds
and a single user-connected event fires with peer identifier p, the
controller performs exactly one createOffer, applies it as the local
description, and emits exactly one signal envelope to the relay addressed
to p whose payload is that offer, whose role tag is offer. -/
theorem offer_on_peer_joined (room p selfId offerBody : String)
    (hroom : room ≠ "") :
    handleUserConnected selfId p offerBody (start room).1 =
      ({ (start room).1 with agent :=
          { signalingState := SignalingState.haveLocalOffer,
            localDescription := some (createOffer offerBody),
            remoteDescription := none, remoteCandidates := [] } },
       [Emission.signal { toPeer := p, fromPeer := selfId,
                          data := { sdp := some (createOffer offerBody), candidate := none } }],
       [AgentOp.createOfferOp, AgentOp.setLocalOp (createOffer offerBody)]) ∧
    (createOffer offerBody).role = Role.offer :=
  ⟨rfl, rfl⟩

/-- C1 witness: the concrete room "room1" with joining peer "B". -/
theorem offer_on_peer_joined_witness :
    ("room1" : String) ≠ "" ∧
    (handleUserConnected "A" "B" "o" (start "room1").1).2.1 =
      [Emission.signal { toPeer := "B", fromPeer := "A",
                          data := { sdp := some (createOffer "o"), candidate := none } }] :=
  ⟨by decide, by
    have h := offer_on_peer_joined "room1" "B" "A" "o" (by decide)
    rw [h.1]⟩

/-- C2: an incoming envelope whose payload is a description of role offer
is applied as the remote description; if that application succeeds the
controller creates a local answer, applies it as the local description
and emits exactly one envelope back to the sender carrying that answer,
whose role tag is answer. -/
theorem answer_on_offer (selfId fromPeer answerBody : String) (c : Controller)
    (desc : Description) (kc : Option Candidate) (a1 : Agent)
    (hrole : desc.role = Role.offer)
    (hset : c.agent.setRemoteDescription desc = some a1) :
    a1.remoteDescription = some desc ∧
    handleSignal selfId fromPeer answerBody ⟨some desc, kc⟩ c =
      ({ c with agent := { a1 with
            localDescription := some (createAnswer answerBody),
            signalingState := SignalingState.stable } },
       [Emission.signal { toPeer := fromPeer, fromPeer := selfId,
                          data := { sdp := some (createAnswer answerBody), candidate := none } }],
       [AgentOp.setRemoteOp desc, AgentOp.createAnswerOp,
        AgentOp.setLocalOp (createAnswer answerBody)]) ∧
    (createAnswer answerBody).role = Role.answer := by
  have he := setRemote_offer_eq c.agent a1 desc hrole hset
  subst he
  refine ⟨rfl, ?_, rfl⟩
  simp only [handleSignal, hset, hrole]
  simp [Agent.setLocalDescription, createAnswer]

/-- C2 witness: a concrete offer arriving at a freshly started controller. -/
theorem answer_on_offer_witness :
    ((⟨Role.offer, "o"⟩ : Description).role = Role.offer) ∧
    ((start "r").1.agent.setRemoteDescription ⟨Role.offer, "o"⟩ =
      some ⟨SignalingState.haveRemoteOffer, none, some ⟨Role.offer, "o"⟩, []⟩) ∧
    (handleSignal "A" "B" "a" ⟨some ⟨Role.offer, "o"⟩, none⟩ (start "r").1).2.1 =
      [Emission.signal { toPeer := "B", fromPeer := "A",
                          data := { sdp := some (createAnswer "a"), candidate := none } }] :=
  ⟨rfl, rfl, by
    have h := answer_on_offer "A" "B" "a" (start "r").1 ⟨Role.offer, "o"⟩ none
      ⟨SignalingState.haveRemoteOffer, none, some ⟨Role.offer, "o"⟩, []⟩ rfl rfl
    rw [h.2.1]⟩

/-- C3 counterexample: at a freshly started controller (no local offer
outstanding, signaling state stable), an incoming answer envelope is not
discarded without any agent operation: the handler invokes one
setRemoteDescription on the agent (which the agent rejects, leaving the
state unchanged and nothing emitted). -/
theorem answer_stale_agent_op_cex :
    (start "r").1.agent.signalingState = SignalingState.stable ∧
    handleSignal "A" "B" "a" ⟨some ⟨Role.answer, "x"⟩, none⟩ (start "r").1 =
      ((start "r").1, [], [AgentOp.setRemoteOp ⟨Role.answer, "x"⟩]) :=
  ⟨rfl, rfl⟩

/-- C3 (amended): an answer is applied as the remote description exactly
when a local offer is outstanding (signaling state haveLocalOffer); when
no local offer is outstanding the controller still invokes one
setRemoteDescription, the agent rejects it, the failure is caught, and
the controller state is unchanged with nothing emitted. -/
theorem answer_requires_local_offer (selfId fromPeer answerBody : String)
    (c : Controller) (desc : Description) (kc : Option Candidate)
    (hrole : desc.role = Role.answer) :
    (c.agent.signalingState = SignalingState.haveLocalOffer →
      handleSignal selfId fromPeer answerBody ⟨some desc, kc⟩ c =
        ({ c with agent := { c.agent with
              remoteDescription := some desc,
              signalingState := SignalingState.stable } }, [],
         [AgentOp.setRemoteOp desc])) ∧
    (c.agent.signalingState ≠ SignalingState.haveLocalOffer →
      handleSignal selfId fromPeer answerBody ⟨some desc, kc⟩ c =
        (c, [], [AgentOp.setRemoteOp desc])) := by
  constructor
  · intro h
    have hs := setRemote_answer_some c.agent desc hrole h
    have hro : desc.role ≠ Role.offer := by rw [hrole]; decide
    simp only [handleSignal, hs]
    simp [hro]
  · intro h
    have hs := setRemote_answer_none c.agent desc hrole h
    simp [handleSignal, hs]

/-- C3 witness: an answer arriving while a local offer is outstanding. -/
theorem answer_requires_local_offer_witness :
    ((⟨Role.answer, "x"⟩ : Description).role = Role.answer) ∧
    ((handleUserConnected "A" "B" "o" (start "r").1).1.agent.signalingState =
      SignalingState.haveLocalOffer) ∧
    handleSignal "A" "B" "a" ⟨some ⟨Role.answer, "x"⟩, none⟩
        (handleUserConnected "A" "B" "o" (start "r").1).1 =
      ({ (handleUserConnected "A" "B" "o" (start "r").1).1 with agent :=
          { (handleUserConnected "A" "B" "o" (start "r").1).1.agent with
              remoteDescription := some ⟨Role.answer, "x"⟩,
              signalingState := SignalingState.stable } }, [],
       [AgentOp.setRemoteOp ⟨Role.answer, "x"⟩]) :=
  ⟨rfl, rfl,
    (answer_requires_local_offer "A" "B" "a"
      (handleUserConnected "A" "B" "o" (start "r").1).1
      ⟨Role.answer, "x"⟩ none rfl).1 rfl⟩

/-- C4 counterexample: a candidate delivered before any remote
description is applied directly to the agent (one addIceCandidate, which
fails) and dropped with the controller unchanged, so after the next
successful remote-description application the agent holds no remote
candidate at all: the candidate was applied zero times, not exactly
once, and was never placed in any queue. -/
theorem candidate_dropped_cex :
    (start "r").1.agent.remoteDescription = none ∧
    handleSignal "A" "B" "a" ⟨none, some ⟨"k"⟩⟩ (start "r").1 =
      ((start "r").1, [], [AgentOp.addIceOp ⟨"k"⟩]) ∧
    (handleSignal "A" "B" "a" ⟨some ⟨Role.offer, "o"⟩, none⟩
        (handleSignal "A" "B" "a" ⟨none, some ⟨"k"⟩⟩ (start "r").1).1).1.agent.remoteDescription =
      some ⟨Role.offer, "o"⟩ ∧
    (handleSignal "A" "B" "a" ⟨some ⟨Role.offer, "o"⟩, none⟩
        (handleSignal "A" "B" "a" ⟨none, some ⟨"k"⟩⟩ (start "r").1).1).1.agent.remoteCandidates =
      [] :=
  ⟨rfl, rfl, rfl, rfl⟩

/-- C4 (amended): a candidate payload is attempted directly on the agent
in every case; before any remote description the attempt fails, is
caught, and the candidate is dropped with the controller unchanged (it
is never queued and never applied later); with a remote description set
it is applied immediately exactly once. -/
theorem candidate_no_queue (selfId fromPeer answerBody : String)
    (c : Controller) (k : Candidate) :
    (c.agent.remoteDescription = none →
      handleSignal selfId fromPeer answerBody ⟨none, some k⟩ c =
        (c, [], [AgentOp.addIceOp k])) ∧
    (∀ d0, c.agent.remoteDescription = some d0 →
      c.agent.signalingState ≠ SignalingState.closed →
      handleSignal selfId fromPeer answerBody ⟨none, some k⟩ c =
        ({ c with agent := { c.agent with
             remoteCandidates := c.agent.remoteCandidates ++ [k] } }, [],
         [AgentOp.addIceOp k])) := by
  constructor
  · intro h
    simp [handleSignal, addIce_no_remote c.agent k h]
  · intro d0 h hc
    simp [handleSignal, addIce_with_remote c.agent k d0 h hc]

/-- C4 witness: the two cases at concrete controllers. -/
theorem candidate_no_queue_witness :
    (start "r").1.agent.remoteDescription = none ∧
    handleSignal "A" "B" "a" ⟨none, some ⟨"k1"⟩⟩ (start "r").1 =
      ((start "r").1, [], [AgentOp.addIceOp ⟨"k1"⟩]) :=
  ⟨rfl, (candidate_no_queue "A" "B" "a" (start "r").1 ⟨"k1"⟩).1 rfl⟩

/-- C5: an incoming envelope whose apply step fails (the agent rejects
the description or the candidate) is absorbed: the failure is caught, no
envelope is emitted for it, and the whole controller state, agent and
relay connection included, is exactly as before. -/
theorem apply_failure_absorbed (selfId fromPeer answerBody : String)
    (c : Controller) (d : SignalData)
    (h : applyFails answerBody c d = true) :
    (handleSignal selfId fromPeer answerBody d c).1 = c ∧
    (handleSignal selfId fromPeer answerBody d c).2.1 = [] := by
  obtain ⟨sd, cd⟩ := d
  cases sd with
  | none =>
      cases cd with
      | none => simp [applyFails] at h
      | some k =>
          cases hk : c.agent.addIceCandidate k with
          | none => simp [handleSignal, hk]
          | some a1 => simp [applyFails, hk] at h
  | some desc =>
      cases hsr : c.agent.setRemoteDescription desc with
      | none => simp [handleSignal, hsr]
      | some a1 =>
          by_cases hr : desc.role = Role.offer
          · have he := setRemote_offer_eq c.agent a1 desc hr hsr
            subst he
            simp [applyFails, hsr, hr, Agent.setLocalDescription, createAnswer] at h
          · simp [applyFails, hsr, hr] at h

/-- C5 witness: a stale answer at a fresh controller makes the apply
fail, and the envelope leaves the controller untouched. -/
theorem apply_failure_absorbed_witness :
    applyFails "a" (start "r").1 ⟨some ⟨Role.answer, "y"⟩, none⟩ = true ∧
    ((handleSignal "A" "B" "a" ⟨some ⟨Role.answer, "y"⟩, none⟩ (start "r").1).1 =
      (start "r").1 ∧
     (handleSignal "A" "B" "a" ⟨some ⟨Role.answer, "y"⟩, none⟩ (start "r").1).2.1 = []) :=
  ⟨rfl, apply_failure_absorbed "A" "B" "a" (start "r").1
    ⟨some ⟨Role.answer, "y"⟩, none⟩ rfl⟩

/-- Filtering by kind commutes with writing the first track of that
kind: the written track is the head of the filtered list. -/
theorem filter_setFirstEnabled (k : TrackKind) (e : Bool) (ts : List Track) :
    getKindTracks k (setFirstEnabled k e ts) =
      setFirstEnabled k e (getKindTracks k ts) := by
  induction ts with
  | nil => rfl
  | cons t ts ih =>
      by_cases hk : t.kind = k
      · simp [setFirstEnabled, getKindTracks, List.filter_cons, hk]
      · simp only [getKindTracks] at ih
        simp [setFirstEnabled, getKindTracks, List.filter_cons, hk, ih]

/-- Writing the first track of a kind keeps the length of the list. -/
theorem length_setFirstEnabled (k : TrackKind) (e : Bool) (ts : List Track) :
    (setFirstEnabled k e ts).length = ts.length := by
  induction ts with
  | nil => rfl
  | cons t ts ih => by_cases hk : t.kind = k <;> simp [setFirstEnabled, hk, ih]

/-- Writing the first track of a kind twice keeps only the second write. -/
theorem setFirstEnabled_setFirstEnabled (k : TrackKind) (e1 e2 : Bool)
    (ts : List Track) :
    setFirstEnabled k e2 (setFirstEnabled k e1 ts) = setFirstEnabled k e2 ts := by
  induction ts with
  | nil => rfl
  | cons t ts ih =>
      by_cases hk : t.kind = k
      · simp [setFirstEnabled, hk]
      · simp [setFirstEnabled, hk, ih]

/-- The head of a filtered track list has the filtered kind. -/
theorem kind_of_filter_head (k : TrackKind) (ts : List Track) (a : Track)
    (rest : List Track) (h : getKindTracks k ts = a :: rest) : a.kind = k := by
  induction ts with
  | nil => simp [getKindTracks] at h
  | cons t ts ih =>
      by_cases hk : t.kind = k
      · rw [getKindTracks, List.filter_cons] at h
        simp [hk] at h
        rw [← h.1]
        exact hk
      · rw [getKindTracks, List.filter_cons] at h
        simp [hk] at h
        exact ih h

/-- After writing the first track of a kind, the head of the filtered
list carries the written enabled flag. -/
theorem head_setFirstEnabled (k : TrackKind) (e : Bool) (ts : List Track)
    (h : getKindTracks k ts ≠ []) :
    ((setFirstEnabled k e (getKindTracks k ts)).head?).map Track.enabled =
      some e := by
  cases hq : getKindTracks k ts with
  | nil => exact absurd hq h
  | cons a rest =>
      have ha : a.kind = k := kind_of_filter_head k ts a rest hq
      simp [setFirstEnabled, ha]

/-- Stopping every track of a list twice equals stopping it once. -/
theorem stopAll_stopAll (ts : List Track) : stopAll (stopAll ts) = stopAll ts := by
  induction ts with
  | nil => rfl
  | cons t ts ih => simp_all [stopAll]

/-- Stopping every track is idempotent as a function. -/
theorem stopAll_comp : stopAll ∘ stopAll = stopAll := funext stopAll_stopAll

/-- Stopping every track of an optional stream twice equals once. -/
theorem optStop_optStop (o : Option (List Track)) :
    (o.map stopAll).map stopAll = o.map stopAll := by
  cases o with
  | none => rfl
  | some ts => simp [stopAll_stopAll]

/-- A halted page ignores every event-loop step. -/
theorem sysStep_halted (selfId : String) (s : Sys) (ev : SysEvent)
    (h : s.ctrl.halted = true) : sysStep selfId s ev = s := by
  simp [sysStep, h]

/-- A halted page ignores every sequence of event-loop steps. -/
theorem sysRun_halted (selfId : String) (s : Sys) (h : s.ctrl.halted = true)
    (evs : List SysEvent) : sysRun selfId s evs = s := by
  induction evs with
  | nil => rfl
  | cons ev evs ih => rw [sysRun, sysStep_halted selfId s ev h]; exact ih

/-- C6: ending the call stops every local media track, closes the
negotiation agent, disconnects the relay socket and reaches the terminal
halted (Ended) state; ending twice equals ending once, and no event-loop
step changes a page whose controller has ended. -/
theorem endCall_spec (selfId : String) (c : Controller)
    (pending : List PendingTask) (log : List Emission) :
    ((endCall c).localStream.getD []).all Track.stopped = true ∧
    (endCall c).agent.signalingState = SignalingState.closed ∧
    (endCall c).socketConnected = false ∧
    (endCall c).halted = true ∧
    endCall (endCall c) = endCall c ∧
    ∀ ev, sysStep selfId { ctrl := endCall c, pending := pending, log := log } ev =
      { ctrl := endCall c, pending := pending, log := log } := by
  refine ⟨?_, rfl, rfl, rfl, ?_, ?_⟩
  · cases hls : c.localStream with
    | none => simp [endCall, cleanup, hls]
    | some ts => simp [endCall, cleanup, hls, stopAll, List.all_map, Function.comp]
  · simp [endCall, cleanup, closeAgent, stopAll_comp, Function.comp_assoc]
  · intro ev
    exact sysStep_halted selfId _ ev rfl

/-- C7: once endCall has run, the page is frozen: the pending
continuations of any in-flight negotiation step are discarded by the
reload, the controller is in the terminal halted state, and no sequence
of further event-loop steps changes anything, so in particular nothing
is ever emitted to the relay after the end. -/
theorem no_emission_after_end (selfId : String) (s : Sys)
    (evs : List SysEvent) (h : s.ctrl.halted = false) :
    (sysStep selfId s (SysEvent.deliver Event.endCallEv)).pending = [] ∧
    (sysStep selfId s (SysEvent.deliver Event.endCallEv)).ctrl.halted = true ∧
    sysRun selfId (sysStep selfId s (SysEvent.deliver Event.endCallEv)) evs =
      sysStep selfId s (SysEvent.deliver Event.endCallEv) := by
  have hs : sysStep selfId s (SysEvent.deliver Event.endCallEv) =
      { ctrl := endCall s.ctrl, pending := [], log := s.log } := by
    simp [sysStep, h]
  rw [hs]
  exact ⟨rfl, rfl, sysRun_halted selfId _ rfl evs⟩

/-- C7 witness: a live page with a pending emission is frozen by the end
of the call; the pending emission never reaches the log. -/
theorem no_emission_after_end_witness :
    pendingSys.ctrl.halted = false ∧
    ((sysStep "A" pendingSys (SysEvent.deliver Event.endCallEv)).pending = [] ∧
     (sysStep "A" pendingSys (SysEvent.deliver Event.endCallEv)).ctrl.halted = true ∧
     sysRun "A" (sysStep "A" pendingSys (SysEvent.deliver Event.endCallEv))
         [SysEvent.resume] =
       sysStep "A" pendingSys (SysEvent.deliver Event.endCallEv)) :=
  ⟨rfl, no_emission_after_end "A" pendingSys [SysEvent.resume] rfl⟩

/-- C8 counterexample: from a state whose audio track is disabled while
the muted flag is false, toggling audio twice brings the flag back to
false but leaves the track enabled flag at true, not at its original
false value. -/
theorem toggle_twice_track_cex :
    skewCtrl.muted = false ∧
    firstTrackEnabled TrackKind.audio skewCtrl = some false ∧
    (toggleMute (toggleMute skewCtrl).1).1.muted = false ∧
    firstTrackEnabled TrackKind.audio (toggleMute (toggleMute skewCtrl).1).1 =
      some true :=
  ⟨rfl, rfl, rfl, rfl⟩

/-- C8 (amended): with a local stream holding an audio (resp. video)
track, toggling twice always restores the controller flag; the track
enabled flag ends at the negation of the original flag, so it is
restored whenever it initially agreed with the flag, as in every state
the component itself produces. -/
theorem toggle_twice_restores (c : Controller) (ts : List Track)
    (hs : c.localStream = some ts) :
    (getAudioTracks ts ≠ [] →
      ((toggleMute (toggleMute c).1).1.muted = c.muted ∧
       (firstTrackEnabled TrackKind.audio c = some (!c.muted) →
         firstTrackEnabled TrackKind.audio (toggleMute (toggleMute c).1).1 =
           firstTrackEnabled TrackKind.audio c))) ∧
    (getVideoTracks ts ≠ [] →
      ((toggleVideo (toggleVideo c).1).1.videoOff = c.videoOff ∧
       (firstTrackEnabled TrackKind.video c = some (!c.videoOff) →
         firstTrackEnabled TrackKind.video (toggleVideo (toggleVideo c).1).1 =
           firstTrackEnabled TrackKind.video c))) := by
  constructor
  · intro hne
    have hlen1 : 0 < (getAudioTracks ts).length := List.length_pos.mpr hne
    have h1 : toggleMute c =
        ({ c with muted := !c.muted,
                  localStream :=
                    some (setFirstEnabled TrackKind.audio c.muted ts) },
         ToggleReport.success) := by
      simp [toggleMute, hs, hlen1]
    have hlen2 : 0 <
        (getAudioTracks (setFirstEnabled TrackKind.audio c.muted ts)).length := by
      rw [getAudioTracks, filter_setFirstEnabled, length_setFirstEnabled]
      exact hlen1
    have h2 : (toggleMute (toggleMute c).1).1 =
        { c with muted := c.muted,
                 localStream :=
                   some (setFirstEnabled TrackKind.audio (!c.muted) ts) } := by
      rw [h1]
      simp [toggleMute, hlen2, setFirstEnabled_setFirstEnabled]
    refine ⟨by rw [h2], fun hagree => ?_⟩
    rw [h2, hagree]
    simp only [firstTrackEnabled]
    rw [getAudioTracks] at hne
    rw [filter_setFirstEnabled, head_setFirstEnabled TrackKind.audio (!c.muted) ts hne]
  · intro hne
    have hlen1 : 0 < (getVideoTracks ts).length := List.length_pos.mpr hne
    have h1 : toggleVideo c =
        ({ c with videoOff := !c.videoOff,
                  localStream :=
                    some (setFirstEnabled TrackKind.video c.videoOff ts) },
         ToggleReport.success) := by
      simp [toggleVideo, hs, hlen1]
    have hlen2 : 0 <
        (getVideoTracks (setFirstEnabled TrackKind.video c.videoOff ts)).length := by
      rw [getVideoTracks, filter_setFirstEnabled, length_setFirstEnabled]
      exact hlen1
    have h2 : (toggleVideo (toggleVideo c).1).1 =
        { c with videoOff := c.videoOff,
                 localStream :=
                   some (setFirstEnabled TrackKind.video (!c.videoOff) ts) } := by
      rw [h1]
      simp [toggleVideo, hlen2, setFirstEnabled_setFirstEnabled]
    refine ⟨by rw [h2], fun hagree => ?_⟩
    rw [h2, hagree]
    simp only [firstTrackEnabled]
    rw [getVideoTracks] at hne
    rw [filter_setFirstEnabled, head_setFirstEnabled TrackKind.video (!c.videoOff) ts hne]

/-- C8 witness: a freshly started controller, whose flags and tracks
agree, has both flags and both track enabled flags restored. -/
theorem toggle_twice_restores_witness :
    (start "r").1.localStream = some initialTracks ∧
    (toggleMute (toggleMute (start "r").1).1).1.muted = (start "r").1.muted ∧
    firstTrackEnabled TrackKind.audio (toggleMute (toggleMute (start "r").1).1).1 =
      firstTrackEnabled TrackKind.audio (start "r").1 ∧
    (toggleVideo (toggleVideo (start "r").1).1).1.videoOff = (start "r").1.videoOff := by
  have h := toggle_twice_restores (start "r").1 initialTracks rfl
  exact ⟨rfl, (h.1 (by decide)).1, (h.1 (by decide)).2 rfl, (h.2 (by decide)).1⟩

/-- C9 counterexample: with a local stream that has no audio track the
audio toggle does not succeed (it reports the no-tracks error and
changes nothing), and with no local stream at all nothing is reported,
not the no-tracks error. -/
theorem toggle_report_cex :
    videoOnlyCtrl.localStream =
      some [{ kind := TrackKind.video, enabled := true, stopped := false }] ∧
    toggleMute videoOnlyCtrl = (videoOnlyCtrl, ToggleReport.noTrackError) ∧
    noStreamCtrl.localStream = none ∧
    toggleMute noStreamCtrl = (noStreamCtrl, ToggleReport.silent) :=
  ⟨rfl, rfl, rfl, rfl⟩

/-- C9 (amended): a toggle succeeds and flips its flag exactly when a
local stream exists holding a track of the matching kind; with a stream
but no matching track it changes nothing and reports the no-tracks
error; with no stream it changes nothing and reports nothing. -/
theorem toggle_reports (c : Controller) :
    (c.localStream = none →
      toggleMute c = (c, ToggleReport.silent) ∧
      toggleVideo c = (c, ToggleReport.silent)) ∧
    (∀ ts, c.localStream = some ts →
      (getAudioTracks ts = [] →
        toggleMute c = (c, ToggleReport.noTrackError)) ∧
      (getAudioTracks ts ≠ [] →
        (toggleMute c).2 = ToggleReport.success ∧
        (toggleMute c).1.muted = !c.muted) ∧
      (getVideoTracks ts = [] →
        toggleVideo c = (c, ToggleReport.noTrackError)) ∧
      (getVideoTracks ts ≠ [] →
        (toggleVideo c).2 = ToggleReport.success ∧
        (toggleVideo c).1.videoOff = !c.videoOff)) := by
  refine ⟨fun h => ?_, fun ts hts => ?_⟩
  · simp [toggleMute, toggleVideo, h]
  · refine ⟨fun h0 => ?_, fun hne => ?_, fun h0 => ?_, fun hne => ?_⟩
    · simp [toggleMute, hts, h0]
    · simp [toggleMute, hts, List.length_pos.mpr hne]
    · simp [toggleVideo, hts, h0]
    · simp [toggleVideo, hts, List.length_pos.mpr hne]

/-- C9 witness: the no-stream and the video-only controllers. -/
theorem toggle_reports_witness :
    noStreamCtrl.localStream = none ∧
    toggleMute noStreamCtrl = (noStreamCtrl, ToggleReport.silent) ∧
    toggleMute videoOnlyCtrl = (videoOnlyCtrl, ToggleReport.noTrackError) :=
  ⟨rfl, ((toggle_reports noStreamCtrl).1 rfl).1,
    ((toggle_reports videoOnlyCtrl).2
      [{ kind := TrackKind.video, enabled := true, stopped := false }] rfl).1 rfl⟩

/-- C10: the signal handler is total over payload shapes: an envelope
with neither sdp nor candidate does nothing at all (no agent operation,
no emission, no state change), and an envelope with both fields is
processed exactly as the same envelope without the candidate field, with
no candidate application among the agent operations. -/
theorem signal_dispatch_total (selfId fromPeer answerBody : String)
    (c : Controller) (sdesc : Description) (k : Candidate) :
    handleSignal selfId fromPeer answerBody ⟨none, none⟩ c = (c, [], []) ∧
    handleSignal selfId fromPeer answerBody ⟨some sdesc, some k⟩ c =
      handleSignal selfId fromPeer answerBody ⟨some sdesc, none⟩ c ∧
    ((handleSignal selfId fromPeer answerBody ⟨some sdesc, some k⟩ c).2.2).all
      (fun op => !(isAddIce op)) = true := by
  refine ⟨rfl, rfl, ?_⟩
  cases hsr : c.agent.setRemoteDescription sdesc with
  | none => simp [handleSignal, hsr, isAddIce]
  | some a1 =>
      by_cases hr : sdesc.role = Role.offer
      · cases hsl : a1.setLocalDescription (createAnswer answerBody) with
        | none => simp [handleSignal, hsr, hr, hsl, isAddIce]
        | some a2 => simp [handleSignal, hsr, hr, hsl, isAddIce]
      · simp [handleSignal, hsr, hr, isAddIce]

end RTC
